import Mathlib

/-!
Verification development for the question-bank management backend
(FastAPI application under src/question-management/backend).

The Lean definitions below are a shallow embedding of the Python sources:

  - models.py        : enums and the Question record
  - audit_logger.py  : log_question_change and get_question_audit_history
  - crud.py          : get_question, get_questions, get_questions_count,
                       create_question, update_question
  - main.py          : read_questions, read_question, update_question and
                       import_questions endpoint bodies

Databases are modelled as lists of rows, Python dicts as association
lists, the per-day audit files as a map from a day offset (0 = today) to
an optional list of lines, and Python exceptions as Except values.
-/

/-- Embeds models.UserRole (a str enum with values admin/editor/viewer). -/
inductive UserRole
  | ADMIN
  | EDITOR
  | VIEWER
deriving DecidableEq, Repr

/-- Embeds models.QuestionStatus (a str enum with values prod/devmt). -/
inductive QuestionStatus
  | PROD
  | DEVMT
deriving DecidableEq, Repr

/-- Embeds models.DifficultyLevel (a str enum with values easy/medium/hard). -/
inductive DifficultyLevel
  | EASY
  | MEDIUM
  | HARD
deriving DecidableEq, Repr

/-- A Python value appearing in an audit snapshot dict: an int, a string or None. -/
inductive PyVal
  | int (n : Int)
  | str (s : String)
  | pynone
deriving DecidableEq, Repr

/-- A Python dict with string keys, modelled as an association list in insertion order. -/
abbrev Dict : Type := List (String × PyVal)

/-- Python d[k] / d.get(k): the value of the first binding of key k, if any. -/
def dictGet (d : Dict) (k : String) : Option PyVal :=
  (List.find? (fun kv => kv.1 == k) d).map (fun kv => kv.2)

/-- Truthiness of an optional dict argument: None and the empty dict are falsy. -/
def truthyDict : Option Dict → Bool
  | some d => !List.isEmpty d
  | Option.none => false

/-- Embeds Python str.lower() on the action tags, which are ASCII:
lowercase every character. -/
def py_lower (s : String) : String := ⟨s.data.map Char.toLower⟩

/-- Embeds one line of the audit log file as written by
audit_logger.log_question_change: timestamp, question_id, user_id, username,
action, summary, and the optional changes diff or created-data snapshot. -/
structure AuditEntry where
  timestamp : String
  question_id : Int
  user_id : Int
  username : String
  action : String
  summary : String
  changes : Option (List (String × PyVal × PyVal))
  data : Option Dict
deriving DecidableEq, Repr

/-- The loop body of the diff computation at one key of new_data: record
(key, old value, new value) when the key is in old_data and the two values
differ (audit_logger.py lines 44-48). -/
def diff_at (old_data new_data : Dict) (k : String) : Option (String × PyVal × PyVal) :=
  match dictGet old_data k with
  | Option.none => Option.none
  | some ov =>
    match dictGet new_data k with
    | Option.none => Option.none
    | some nv => if ov ≠ nv then some (k, ov, nv) else Option.none

/-- Embeds the diff loop of audit_logger.log_question_change (lines 42-48):
iterate over the keys of new_data and collect the differing bindings. -/
def compute_changes (old_data new_data : Dict) : List (String × PyVal × PyVal) :=
  (new_data.map Prod.fst).filterMap (diff_at old_data new_data)

/-- Embeds audit_logger.log_question_change (lines 18-56).  The timestamp is
passed in explicitly (the source reads the clock).  The summary defaults to
"Question " ++ the lowercased action when the summary argument is None or
empty (Python `summary or f"Question \x7baction.lower()\x7d"`).  The changes
and data fields follow the truthiness branches of the source. -/
def log_question_change (question_id user_id : Int) (username action : String)
    (old_data new_data : Option Dict) (summary : Option String)
    (timestamp : String) : AuditEntry :=
  let s : String :=
    match summary with
    | some str => if str.isEmpty then "Question " ++ py_lower action else str
    | Option.none => "Question " ++ py_lower action
  let base : AuditEntry :=
    ⟨timestamp, question_id, user_id, username, action, s, Option.none, Option.none⟩
  if truthyDict old_data && truthyDict new_data then
    { base with changes := some (compute_changes (old_data.getD []) (new_data.getD [])) }
  else if truthyDict new_data then
    { base with data := new_data }
  else
    base

/-- Embeds the models.Question row (models.py lines 36-57).  The two server
timestamps are omitted: no claim mentions them. -/
structure Question where
  id : Int
  subject : String
  topic : String
  question : String
  difficulty : DifficultyLevel
  status : QuestionStatus
  attachment_filename : Option String
  attachment_path : Option String
  is_deleted : Bool
  created_by : Int
  updated_by : Option Int
deriving DecidableEq, Repr

/-- Embeds schemas.QuestionCreate: subject, topic, question, difficulty and
an optional attachment filename.  There is no status field. -/
structure QuestionCreate where
  subject : String
  topic : String
  question : String
  difficulty : DifficultyLevel
  attachment_filename : Option String
deriving DecidableEq, Repr

/-- Embeds schemas.QuestionUpdate: every field optional, none meaning the
field is absent from the payload.  Pydantic marks a field as set both when
the request supplies it and when the handler assigns to it, so after the
handler in main.py runs, the status field is always applied by
crud.update_question. -/
structure QuestionUpdate where
  subject : Option String
  topic : Option String
  question : Option String
  difficulty : Option DifficultyLevel
  attachment_filename : Option String
  status : Option QuestionStatus
deriving DecidableEq, Repr

/-- Truthiness of an optional string: None and the empty string are falsy. -/
def truthyStr : Option String → Bool
  | some s => !s.isEmpty
  | Option.none => false

/-- Case-insensitive substring test, embedding the SQL
column.ilike("%pat%") filters of crud.py (wildcard characters inside the
pattern itself are not modelled; no claim uses them). -/
def sqlIlike (column pat : String) : Bool :=
  let h := column.toLower.data
  let n := pat.toLower.data
  (List.range (h.length + 1)).any fun i => (h.drop i).take n.length == n

/-- The subject filter of crud.py (`if subject: query.filter(ilike)`),
skipped for a falsy argument. -/
def stage_subject (l : List Question) (subject : Option String) : List Question :=
  if truthyStr subject then l.filter (fun x => sqlIlike x.subject (subject.getD "")) else l

/-- The topic filter of crud.py, skipped for a falsy argument. -/
def stage_topic (l : List Question) (topic : Option String) : List Question :=
  if truthyStr topic then l.filter (fun x => sqlIlike x.topic (topic.getD "")) else l

/-- The difficulty filter of crud.py, skipped when the argument is None. -/
def stage_difficulty (l : List Question) (difficulty : Option DifficultyLevel) :
    List Question :=
  match difficulty with
  | some d => l.filter (fun x => x.difficulty == d)
  | Option.none => l

/-- The status filter of crud.py, skipped when the argument is None. -/
def stage_status (l : List Question) (status : Option QuestionStatus) : List Question :=
  match status with
  | some s => l.filter (fun x => x.status == s)
  | Option.none => l

/-- Embeds the four optional value filters shared by crud.get_questions and
crud.get_questions_count (applied after the is_deleted filter, in source
order: subject, topic, difficulty, status). -/
def rest_filters (l : List Question) (subject topic : Option String)
    (difficulty : Option DifficultyLevel) (status : Option QuestionStatus) :
    List Question :=
  stage_status (stage_difficulty (stage_topic (stage_subject l subject) topic) difficulty) status

/-- The conjunction of the four optional value filters at one row, used to
state which rows the pipeline keeps. -/
def matches_filters (x : Question) (subject topic : Option String)
    (difficulty : Option DifficultyLevel) (status : Option QuestionStatus) : Bool :=
  (!truthyStr subject || sqlIlike x.subject (subject.getD "")) &&
  (!truthyStr topic || sqlIlike x.topic (topic.getD "")) &&
  (match difficulty with | some d => x.difficulty == d | Option.none => true) &&
  (match status with | some s => x.status == s | Option.none => true)

/-- The full filter pipeline of crud.get_questions / get_questions_count:
first the soft-delete filter (skipped when include_deleted), then the value
filters. -/
def question_filters (db : List Question) (subject topic : Option String)
    (difficulty : Option DifficultyLevel) (status : Option QuestionStatus)
    (include_deleted : Bool) : List Question :=
  rest_filters (if include_deleted then db else db.filter (fun x => x.is_deleted == false))
    subject topic difficulty status

/-- Embeds crud.get_questions (lines 41-68): the filter pipeline followed by
offset(skip).limit(limit). -/
def get_questions (db : List Question) (skip limit : Nat)
    (subject topic : Option String) (difficulty : Option DifficultyLevel)
    (status : Option QuestionStatus) (include_deleted : Bool) : List Question :=
  ((question_filters db subject topic difficulty status include_deleted).drop skip).take limit

/-- Embeds crud.get_questions_count (lines 70-95): the same filter pipeline,
then count(). -/
def get_questions_count (db : List Question) (subject topic : Option String)
    (difficulty : Option DifficultyLevel) (status : Option QuestionStatus)
    (include_deleted : Bool) : Nat :=
  (question_filters db subject topic difficulty status include_deleted).length

/-- Embeds crud.get_question (lines 35-39): filter by primary key, then by
the soft-delete flag unless include_deleted, then first(). -/
def get_question (db : List Question) (question_id : Int) (include_deleted : Bool) :
    Option Question :=
  let q := db.filter (fun x => x.id == question_id)
  let q := if include_deleted then q else q.filter (fun x => x.is_deleted == false)
  q.head?

/-- Embeds crud.create_question (lines 97-110): the new row copies the
schema fields, records the creator and is stored with status PROD.  The
database assigns the primary key, passed here as new_id. -/
def create_question (db : List Question) (question : QuestionCreate) (user_id : Int)
    (new_id : Int) : List Question × Question :=
  let dq : Question :=
    { id := new_id
      subject := question.subject
      topic := question.topic
      question := question.question
      difficulty := question.difficulty
      status := QuestionStatus.PROD
      attachment_filename := question.attachment_filename
      attachment_path := Option.none
      is_deleted := false
      created_by := user_id
      updated_by := Option.none }
  (db ++ [dq], dq)

/-- Applies the subject field of the update payload when it is set. -/
def apply_subject (q : Question) : Option String → Question
  | some v => { q with subject := v }
  | Option.none => q

/-- Applies the topic field of the update payload when it is set. -/
def apply_topic (q : Question) : Option String → Question
  | some v => { q with topic := v }
  | Option.none => q

/-- Applies the question body field of the update payload when it is set. -/
def apply_body (q : Question) : Option String → Question
  | some v => { q with question := v }
  | Option.none => q

/-- Applies the difficulty field of the update payload when it is set. -/
def apply_difficulty (q : Question) : Option DifficultyLevel → Question
  | some v => { q with difficulty := v }
  | Option.none => q

/-- Applies the attachment filename field of the update payload when it is set. -/
def apply_attachment (q : Question) : Option String → Question
  | some v => { q with attachment_filename := some v }
  | Option.none => q

/-- Applies the status field of the update payload when it is set. -/
def apply_status (q : Question) : Option QuestionStatus → Question
  | some v => { q with status := v }
  | Option.none => q

/-- Embeds the setattr loop of crud.update_question (lines 115-117): each
field present in the payload dict (exclude_unset) overwrites the row field. -/
def apply_update (q : Question) (u : QuestionUpdate) : Question :=
  apply_status
    (apply_attachment
      (apply_difficulty
        (apply_body
          (apply_topic (apply_subject q u.subject) u.topic)
          u.question)
        u.difficulty)
      u.attachment_filename)
    u.status

/-- Embeds crud.update_question (lines 112-122): load the non-deleted row,
apply the set fields, stamp updated_by, and write the row back.  Returns the
new database and the updated row (none when the row was not found). -/
def update_question (db : List Question) (question_id : Int) (u : QuestionUpdate)
    (user_id : Int) : List Question × Option Question :=
  match get_question db question_id false with
  | Option.none => (db, Option.none)
  | some q =>
    let q2 := { apply_update q u with updated_by := some user_id }
    (db.map (fun x => if x.id == question_id then q2 else x), some q2)

/-- An HTTPException as raised by the handlers in main.py. -/
structure HTTPErr where
  status_code : Nat
  detail : String
deriving DecidableEq, Repr

/-- The effective status filter of the list endpoint: main.py lines 95-97
overwrite the requested status with PROD for viewer-role callers. -/
def effective_status (role : UserRole) (status : Option QuestionStatus) :
    Option QuestionStatus :=
  if role = UserRole.VIEWER then some QuestionStatus.PROD else status

/-- The response body of the list endpoint (schemas.QuestionListResponse). -/
structure QuestionListResponse where
  questions : List Question
  total : Nat
  page : Int
  size : Int
deriving DecidableEq, Repr

/-- Python integer floor division, which raises ZeroDivisionError when the
divisor is zero. -/
def pyFloorDiv (a b : Int) : Except String Int :=
  if b = 0 then Except.error "integer division or modulo by zero"
  else Except.ok (Int.fdiv a b)

/-- Embeds the read_questions endpoint (main.py lines 84-112): force the
status filter to PROD for viewers, run the list and count queries, and build
the response whose page field is skip // limit + 1 (a Python floor division
that raises when limit = 0, turning the request into a server error). -/
def read_questions_endpoint (db : List Question) (skip limit : Int)
    (subject topic : Option String) (difficulty : Option DifficultyLevel)
    (status : Option QuestionStatus) (role : UserRole) :
    Except String QuestionListResponse :=
  let st := effective_status role status
  let questions := get_questions db skip.toNat limit.toNat subject topic difficulty st false
  let total := get_questions_count db subject topic difficulty st false
  match pyFloorDiv skip limit with
  | Except.error e => Except.error e
  | Except.ok d => Except.ok ⟨questions, total, d + 1, limit⟩

/-- Embeds the read_question endpoint (main.py lines 114-128): 404 when the
row is missing, and the same 404 when a viewer requests a question whose
status is not PROD. -/
def read_question_endpoint (db : List Question) (question_id : Int) (role : UserRole) :
    Except HTTPErr Question :=
  match get_question db question_id false with
  | Option.none => Except.error ⟨404, "Question not found"⟩
  | some question =>
    if role = UserRole.VIEWER ∧ question.status ≠ QuestionStatus.PROD then
      Except.error ⟨404, "Question not found"⟩
    else
      Except.ok question

/-- Embeds the update_question endpoint (main.py lines 152-203), restricted
to its state effect: 404 when the row is missing; otherwise the payload
status is replaced by DEVMT when it is None (the pydantic assignment marks
the field as set), and crud.update_question is applied.  Returns the new
database and the updated row. -/
def update_question_endpoint (db : List Question) (question_id : Int)
    (question_update : QuestionUpdate) (user_id : Int) :
    Except HTTPErr (List Question × Question) :=
  match get_question db question_id false with
  | Option.none => Except.error ⟨404, "Question not found"⟩
  | some _ =>
    let qu :=
      if question_update.status = Option.none then
        { question_update with status := some QuestionStatus.DEVMT }
      else
        question_update
    match update_question db question_id qu user_id with
    | (db2, some q) => Except.ok (db2, q)
    | (_, Option.none) => Except.error ⟨500, "Internal Server Error"⟩

/-- The required fields checked by the import endpoint (main.py line 314). -/
def required_fields : List String := ["subject", "topic", "question", "difficulty"]

/-- An element of the imported questions array: a JSON object with string
values, as an association list. -/
abbrev ImportItem : Type := List (String × String)

/-- Python item[k] / item.get(k) on an import element. -/
def itemGet (item : ImportItem) (k : String) : Option String :=
  (List.find? (fun kv => kv.1 == k) item).map (fun kv => kv.2)

/-- Embeds the DifficultyLevel constructor call of main.py line 325: a valid
value yields the member, anything else raises ValueError. -/
def parse_difficulty (s : String) : Option DifficultyLevel :=
  if s == "easy" then some DifficultyLevel.EASY
  else if s == "medium" then some DifficultyLevel.MEDIUM
  else if s == "hard" then some DifficultyLevel.HARD
  else Option.none

/-- Embeds the required-field loop of main.py lines 314-318.  The loop
appends one error message per missing field; its continue statement targets
this inner loop, where it is the last statement and therefore a no-op, so
the loop never skips the rest of the item processing. -/
def missing_field_errors (idx : Nat) (item : ImportItem) : List String :=
  required_fields.filterMap fun f =>
    if (itemGet item f).isNone then
      some ("Question " ++ toString (idx + 1) ++ ": Missing required field \x27" ++ f ++ "\x27")
    else
      Option.none

/-- Embeds the QuestionCreate construction of main.py lines 321-327, which
runs after the validation loop even for items with missing fields: the
keyword arguments are evaluated left to right, the first missing key raises
KeyError (whose str is the quoted key), and an invalid difficulty raises
ValueError. -/
def build_question_create (item : ImportItem) : Except String QuestionCreate :=
  match itemGet item "subject" with
  | Option.none => Except.error "\x27subject\x27"
  | some subj =>
    match itemGet item "topic" with
    | Option.none => Except.error "\x27topic\x27"
    | some top =>
      match itemGet item "question" with
      | Option.none => Except.error "\x27question\x27"
      | some body =>
        match itemGet item "difficulty" with
        | Option.none => Except.error "\x27difficulty\x27"
        | some diffStr =>
          match parse_difficulty diffStr with
          | Option.none =>
            Except.error ("\x27" ++ diffStr ++ "\x27 is not a valid DifficultyLevel")
          | some diff =>
            Except.ok ⟨subj, top, body, diff, itemGet item "attachment"⟩

/-- The running state of the import loop: the imported count, the error
list, and the successfully created question schemas in order. -/
structure ImportState where
  imported_count : Nat
  errors : List String
  created : List QuestionCreate
deriving DecidableEq, Repr

/-- Embeds one iteration of the import loop (main.py lines 311-345): the
validation loop appends its messages, then the try block either creates the
question and increments the count, or appends the exception text as one more
error; either way the loop proceeds to the next item. -/
def process_import_item (st : ImportState) (idx : Nat) (item : ImportItem) : ImportState :=
  let errs := st.errors ++ missing_field_errors idx item
  match build_question_create item with
  | Except.ok qc =>
    ⟨st.imported_count + 1, errs, st.created ++ [qc]⟩
  | Except.error e =>
    ⟨st.imported_count, errs ++ ["Question " ++ toString (idx + 1) ++ ": " ++ e], st.created⟩

/-- Embeds the whole import loop of main.py import_questions over the
questions array, starting from imported_count = 0 and no errors. -/
def import_questions (items : List ImportItem) : ImportState :=
  (items.enum).foldl (fun st p => process_import_item st p.1 p.2) ⟨0, [], []⟩

/-- The import document of the C1 test property:
two items, the second missing topic, question and difficulty. -/
def c1_items : List ImportItem :=
  [[("subject", "S"), ("topic", "T"), ("question", "Q"), ("difficulty", "easy")],
   [("subject", "S2")]]

/-- One parsed line of an audit log file, as consumed by
audit_logger.get_question_audit_history: entry.get of question_id and
timestamp, plus the remaining JSON content, kept opaque. -/
structure ScanEntry where
  question_id : Option Int
  timestamp : Option String
  rest : String
deriving DecidableEq, Repr

/-- A raw line of an audit log file: either valid JSON parsing to an entry,
or garbage that json.loads rejects. -/
inductive LogLine
  | entry (e : ScanEntry)
  | garbage (raw : String)
deriving DecidableEq, Repr

/-- Embeds json.loads on one line inside the try block: garbage raises
JSONDecodeError, which the scan skips. -/
def parse_line : LogLine → Option ScanEntry
  | LogLine.entry e => some e
  | LogLine.garbage _ => Option.none

/-- The filesystem of daily audit files, as a map from the day offset
(0 = today, 1 = yesterday, ...) to the file lines when the file exists. -/
abbrev AuditFS : Type := Nat → Option (List LogLine)

/-- Embeds the inner loop of the scan: parse each line, skip unparseable
lines, keep entries whose question_id equals the queried id. -/
def day_matches (lines : List LogLine) (question_id : Int) : List ScanEntry :=
  lines.filterMap fun l =>
    match parse_line l with
    | some e => if e.question_id == some question_id then some e else Option.none
    | Option.none => Option.none

/-- Embeds the day loop of audit_logger.get_question_audit_history lines
62-75: for i in range(days_back), read the file of day today - i when it
exists and collect its matching entries, in file order. -/
def scan_matches (fs : AuditFS) (question_id : Int) (days_back : Nat) : List ScanEntry :=
  ((List.range days_back).map fun i =>
    match fs i with
    | some lines => day_matches lines question_id
    | Option.none => []).flatten

/-- The sort key of the final sort: x.get of timestamp with default empty
string. -/
def sort_key (e : ScanEntry) : String := e.timestamp.getD ""

/-- Inserts an element into a list sorted by descending sort key, after all
elements with an equal or larger key, matching the stability of the Python
sort. -/
def insert_desc (x : ScanEntry) : List ScanEntry → List ScanEntry
  | [] => [x]
  | y :: ys => if sort_key y < sort_key x then x :: y :: ys else y :: insert_desc x ys

/-- Embeds history.sort(key, reverse=True) of audit_logger line 78: a stable
sort by descending timestamp key. -/
def sort_desc (l : List ScanEntry) : List ScanEntry :=
  l.foldl (fun acc x => insert_desc x acc) []

/-- A list of entries is ordered by descending timestamp key. -/
def sorted_desc (l : List ScanEntry) : Prop :=
  List.Pairwise (fun a b => sort_key b ≤ sort_key a) l

/-- Embeds audit_logger.get_question_audit_history (lines 58-79): collect
the matching entries of the last days_back daily files and sort them by
timestamp, newest first. -/
def get_question_audit_history (fs : AuditFS) (question_id : Int) (days_back : Nat) :
    List ScanEntry :=
  sort_desc (scan_matches fs question_id days_back)

/-- Removes the unparseable lines of every existing daily file. -/
def drop_garbage (fs : AuditFS) : AuditFS :=
  fun i =>
    (fs i).map fun lines =>
      lines.filter fun l =>
        match l with
        | LogLine.entry _ => true
        | LogLine.garbage _ => false

/-- The module-level binding of the name get_question_audit_history in
main.py: line 16 first binds it to the audit_logger function, then the
endpoint def at line 393 rebinds the same module-global name to the endpoint
coroutine function. -/
inductive HistoryNameBinding
  | auditLoggerFunction
  | endpointFunction
deriving DecidableEq, Repr

/-- The binding in effect once main.py has finished executing, i.e. the one
every request-time lookup inside the endpoint body sees. -/
def main_history_binding : HistoryNameBinding := HistoryNameBinding.endpointFunction

/-- The value produced by calling the name get_question_audit_history from
inside the endpoint body (main.py line 399): calling the audit_logger
function returns the scanned entries, while calling the async endpoint
function returns an un-awaited coroutine object, which the response encoder
cannot serialize as the history list. -/
inductive HistoryCallResult
  | entries (l : List ScanEntry)
  | coroutine
deriving DecidableEq, Repr

/-- Resolves and calls the name with the given binding. -/
def call_history_name (b : HistoryNameBinding) (fs : AuditFS) (question_id : Int)
    (days_back : Nat) : HistoryCallResult :=
  match b with
  | HistoryNameBinding.auditLoggerFunction =>
    HistoryCallResult.entries (get_question_audit_history fs question_id days_back)
  | HistoryNameBinding.endpointFunction => HistoryCallResult.coroutine

/-- The value the endpoint at main.py lines 392-400 stores under the history
key of its response: the result of calling the module-global name. -/
def endpoint_history_value (fs : AuditFS) (question_id : Int) (days_back : Nat) :
    HistoryCallResult :=
  call_history_name main_history_binding fs question_id days_back

/-- A one-file, one-entry filesystem used to evaluate the history endpoint. -/
def c2_fs : AuditFS := fun i =>
  if i = 0 then
    some [LogLine.entry ⟨some 1, some "2024-01-01T00:00:00", ""⟩]
  else
    Option.none

/-- A sample stored question used to evaluate the update endpoint. -/
def c5_q0 : Question :=
  ⟨1, "s", "t", "b", DifficultyLevel.EASY, QuestionStatus.PROD, Option.none, Option.none,
    false, 1, Option.none⟩

/-- An update payload that changes the subject and omits status. -/
def c5_upd_none : QuestionUpdate :=
  ⟨some "s2", Option.none, Option.none, Option.none, Option.none, Option.none⟩

/-- An update payload that explicitly supplies status PROD. -/
def c5_upd_some : QuestionUpdate :=
  ⟨Option.none, Option.none, Option.none, Option.none, Option.none, some QuestionStatus.PROD⟩

/-- The row produced by applying c5_upd_none to c5_q0 with user 2. -/
def c5_q2a : Question :=
  ⟨1, "s2", "t", "b", DifficultyLevel.EASY, QuestionStatus.DEVMT, Option.none, Option.none,
    false, 1, some 2⟩

/-- The row produced by applying c5_upd_some to c5_q0 with user 2. -/
def c5_q2b : Question :=
  ⟨1, "s", "t", "b", DifficultyLevel.EASY, QuestionStatus.PROD, Option.none, Option.none,
    false, 1, some 2⟩

/-- A stored question in devmt status, used to evaluate the viewer rules. -/
def c6_qdev : Question :=
  ⟨1, "s", "t", "b", DifficultyLevel.EASY, QuestionStatus.DEVMT, Option.none, Option.none,
    false, 1, Option.none⟩

/-- A soft-deleted stored question, used to evaluate the listing rules. -/
def c7_qdel : Question :=
  ⟨1, "s", "t", "b", DifficultyLevel.EASY, QuestionStatus.PROD, Option.none, Option.none,
    true, 1, Option.none⟩

/-- C1: on the two-item document the import loop creates the first question
and reaches the end, but the second item produces four recorded errors, not
one: three messages from the validation loop (whose continue is a no-op in
the inner loop) and the KeyError text raised while building the question.
The imported count is 1 and the import does not abort. -/
theorem c1_import_partial_errors :
    (import_questions c1_items).imported_count = 1 ∧
    (import_questions c1_items).created = [⟨"S", "T", "Q", DifficultyLevel.EASY, Option.none⟩] ∧
    (import_questions c1_items).errors =
      ["Question 2: Missing required field \x27topic\x27",
       "Question 2: Missing required field \x27question\x27",
       "Question 2: Missing required field \x27difficulty\x27",
       "Question 2: \x27topic\x27"] ∧
    (import_questions c1_items).errors.length ≠ 1 := by
  refine ⟨rfl, rfl, rfl, ?_⟩
  decide

/-- C2: the history endpoint of main.py calls the module-global name
get_question_audit_history, which the endpoint def itself rebinds, so the
call yields an un-awaited coroutine object instead of the file-scan result:
on a filesystem whose scan would return one matching entry, the value the
endpoint stores under the history key is not that entry list. -/
theorem c2_shadowed_endpoint :
    endpoint_history_value c2_fs 1 30 = HistoryCallResult.coroutine ∧
    get_question_audit_history c2_fs 1 30 = [⟨some 1, some "2024-01-01T00:00:00", ""⟩] ∧
    endpoint_history_value c2_fs 1 30 ≠
      HistoryCallResult.entries (get_question_audit_history c2_fs 1 30) := by
  refine ⟨rfl, by decide, ?_⟩
  intro h
  exact HistoryCallResult.noConfusion h

/-- C3 counterexample: with the summary argument omitted and action CREATE,
the recorded summary is the string Question create, not the lowercased
action create, refuting the claim at this concrete input. -/
theorem c3_summary_counterexample :
    (log_question_change 1 2 "alice" "CREATE" Option.none Option.none Option.none
        "2024-01-01T00:00:00").summary = "Question create" ∧
    (log_question_change 1 2 "alice" "CREATE" Option.none Option.none Option.none
        "2024-01-01T00:00:00").summary ≠ "create" := by
  constructor
  · decide
  · decide

/-- C3 amended: for every call with the summary argument omitted, the
recorded summary is the string Question followed by a space and the
lowercased action tag. -/
theorem c3_summary_default (question_id user_id : Int) (username action : String)
    (old_data new_data : Option Dict) (timestamp : String) :
    (log_question_change question_id user_id username action old_data new_data
        Option.none timestamp).summary = "Question " ++ py_lower action := by
  unfold log_question_change
  dsimp only
  split
  · rfl
  · split
    · rfl
    · rfl

/-- Membership in the diff computed by log_question_change: a triple is
recorded exactly when the key is bound in both dicts and the two values
differ. -/
theorem mem_compute_changes (old_data new_data : Dict) (k : String) (ov nv : PyVal) :
    (k, ov, nv) ∈ compute_changes old_data new_data ↔
      dictGet old_data k = some ov ∧ dictGet new_data k = some nv ∧ ov ≠ nv := by
  unfold compute_changes
  rw [List.mem_filterMap]
  constructor
  · rintro ⟨k0, hk0, hf⟩
    unfold diff_at at hf
    cases ho : dictGet old_data k0 with
    | none => rw [ho] at hf; exact Option.noConfusion hf
    | some ov0 =>
      rw [ho] at hf
      cases hn : dictGet new_data k0 with
      | none => rw [hn] at hf; exact Option.noConfusion hf
      | some nv0 =>
        rw [hn] at hf
        dsimp only at hf
        by_cases hne : ov0 = nv0
        · rw [if_neg (fun h => h hne)] at hf
          exact Option.noConfusion hf
        · rw [if_pos hne] at hf
          simp only [Option.some.injEq, Prod.mk.injEq] at hf
          obtain ⟨hk, hov, hnv⟩ := hf
          subst hk
          subst hov
          subst hnv
          exact ⟨ho, hn, hne⟩
  · rintro ⟨ho, hn, hne⟩
    refine ⟨k, ?_, ?_⟩
    · unfold dictGet at hn
      obtain ⟨kv, hfind, -⟩ := Option.map_eq_some'.mp hn
      have hmem := List.mem_of_find?_eq_some hfind
      have hkey := List.find?_some hfind
      exact List.mem_map.mpr ⟨kv, hmem, eq_of_beq hkey⟩
    · unfold diff_at
      rw [ho]
      dsimp only
      rw [hn]
      dsimp only
      rw [if_pos hne]

/-- C4: for every pair of non-empty snapshots the recorded change set
contains exactly the keys bound in both whose values differ, each mapped to
its old and new values; in particular the documented example records
exactly the b field. -/
theorem c4_diff_exact :
    (∀ (question_id user_id : Int) (username action : String) (old_data new_data : Dict)
        (summary : Option String) (timestamp : String),
        old_data ≠ [] → new_data ≠ [] →
        ∃ cs,
          (log_question_change question_id user_id username action (some old_data)
              (some new_data) summary timestamp).changes = some cs ∧
          ∀ k ov nv, (k, ov, nv) ∈ cs ↔
            (dictGet old_data k = some ov ∧ dictGet new_data k = some nv ∧ ov ≠ nv)) ∧
    (log_question_change 1 1 "u" "UPDATE"
        (some [("a", PyVal.int 1), ("b", PyVal.int 2)])
        (some [("a", PyVal.int 1), ("b", PyVal.int 3), ("c", PyVal.int 4)])
        Option.none "t").changes = some [("b", PyVal.int 2, PyVal.int 3)] := by
  constructor
  · intro question_id user_id username action old_data new_data summary timestamp ho hn
    refine ⟨compute_changes old_data new_data, ?_, ?_⟩
    · cases old_data with
      | nil => exact absurd rfl ho
      | cons a ta =>
        cases new_data with
        | nil => exact absurd rfl hn
        | cons b tb =>
          simp [log_question_change, truthyDict]
    · intro k ov nv
      exact mem_compute_changes old_data new_data k ov nv
  · decide

/-- C4 witness: the documented example instantiates the general statement. -/
theorem c4_diff_exact_witness :
    ([("a", PyVal.int 1), ("b", PyVal.int 2)] : Dict) ≠ [] ∧
    ([("a", PyVal.int 1), ("b", PyVal.int 3), ("c", PyVal.int 4)] : Dict) ≠ [] ∧
    ∃ cs,
      (log_question_change 1 1 "u" "UPDATE"
          (some [("a", PyVal.int 1), ("b", PyVal.int 2)])
          (some [("a", PyVal.int 1), ("b", PyVal.int 3), ("c", PyVal.int 4)])
          Option.none "t").changes = some cs ∧
      ∀ k ov nv, (k, ov, nv) ∈ cs ↔
        (dictGet [("a", PyVal.int 1), ("b", PyVal.int 2)] k = some ov ∧
         dictGet [("a", PyVal.int 1), ("b", PyVal.int 3), ("c", PyVal.int 4)] k = some nv ∧
         ov ≠ nv) :=
  ⟨by decide, by decide,
    c4_diff_exact.1 1 1 "u" "UPDATE"
      [("a", PyVal.int 1), ("b", PyVal.int 2)]
      [("a", PyVal.int 1), ("b", PyVal.int 3), ("c", PyVal.int 4)]
      Option.none "t" (by decide) (by decide)⟩

/-- C10: the branch between recording a diff and recording the snapshot is
by truthiness: an empty old dict with a non-empty new dict stores the new
dict verbatim under data with no changes field, and an empty new dict
records neither field whatever the old argument is. -/
theorem c10_truthiness (question_id user_id : Int) (username action : String)
    (summary : Option String) (timestamp : String) (nd : Dict) (hnd : nd ≠ [])
    (od : Option Dict) :
    ((log_question_change question_id user_id username action (some []) (some nd)
        summary timestamp).data = some nd ∧
     (log_question_change question_id user_id username action (some []) (some nd)
        summary timestamp).changes = Option.none) ∧
    ((log_question_change question_id user_id username action od (some [])
        summary timestamp).changes = Option.none ∧
     (log_question_change question_id user_id username action od (some [])
        summary timestamp).data = Option.none) := by
  constructor
  · cases nd with
    | nil => exact absurd rfl hnd
    | cons a t => constructor <;> simp [log_question_change, truthyDict]
  · constructor <;> simp [log_question_change, truthyDict]

/-- C10 witness: a concrete instantiation with a one-field new dict. -/
theorem c10_truthiness_witness :
    ([("a", PyVal.int 1)] : Dict) ≠ [] ∧
    (((log_question_change 1 2 "alice" "UPDATE" (some []) (some [("a", PyVal.int 1)])
        Option.none "t").data = some [("a", PyVal.int 1)] ∧
      (log_question_change 1 2 "alice" "UPDATE" (some []) (some [("a", PyVal.int 1)])
        Option.none "t").changes = Option.none) ∧
     ((log_question_change 1 2 "alice" "UPDATE" (some [("a", PyVal.int 1)]) (some [])
        Option.none "t").changes = Option.none ∧
      (log_question_change 1 2 "alice" "UPDATE" (some [("a", PyVal.int 1)]) (some [])
        Option.none "t").data = Option.none)) :=
  ⟨by decide,
    c10_truthiness 1 2 "alice" "UPDATE" Option.none "t" [("a", PyVal.int 1)] (by decide)
      (some [("a", PyVal.int 1)])⟩

/-- The subject stage of the setattr loop does not touch the status field. -/
theorem apply_subject_status (q : Question) (v : Option String) :
    (apply_subject q v).status = q.status := by
  cases v <;> rfl

/-- The topic stage of the setattr loop does not touch the status field. -/
theorem apply_topic_status (q : Question) (v : Option String) :
    (apply_topic q v).status = q.status := by
  cases v <;> rfl

/-- The body stage of the setattr loop does not touch the status field. -/
theorem apply_body_status (q : Question) (v : Option String) :
    (apply_body q v).status = q.status := by
  cases v <;> rfl

/-- The difficulty stage of the setattr loop does not touch the status field. -/
theorem apply_difficulty_status (q : Question) (v : Option DifficultyLevel) :
    (apply_difficulty q v).status = q.status := by
  cases v <;> rfl

/-- The attachment stage of the setattr loop does not touch the status field. -/
theorem apply_attachment_status (q : Question) (v : Option String) :
    (apply_attachment q v).status = q.status := by
  cases v <;> rfl

/-- When the payload sets the status field, the updated row carries it. -/
theorem apply_update_status_some (q : Question) (u : QuestionUpdate) (s : QuestionStatus)
    (h : u.status = some s) : (apply_update q u).status = s := by
  unfold apply_update
  rw [h]
  rfl

/-- A successful pass through the update endpoint yields the row computed by
apply_update on the effective payload, with the updater stamped. -/
theorem update_question_endpoint_ok (db db2 : List Question) (question_id : Int)
    (qu : QuestionUpdate) (user_id : Int) (q2 : Question)
    (hok : update_question_endpoint db question_id qu user_id = Except.ok (db2, q2)) :
    ∃ orig, get_question db question_id false = some orig ∧
      q2 = { apply_update orig
              (if qu.status = Option.none then
                { qu with status := some QuestionStatus.DEVMT }
              else qu) with updated_by := some user_id } := by
  unfold update_question_endpoint at hok
  cases hget : get_question db question_id false with
  | none => rw [hget] at hok; exact Except.noConfusion hok
  | some orig =>
    rw [hget] at hok
    dsimp only at hok
    unfold update_question at hok
    rw [hget] at hok
    dsimp only at hok
    refine ⟨orig, rfl, ?_⟩
    injection hok with hpair
    have h2 := congrArg Prod.snd hpair
    exact h2.symm

/-- C5: create always stores status prod (the create schema has no status
field); an update whose payload omits status stores devmt, and an update
that supplies a status stores that status. -/
theorem c5_status_defaults :
    (∀ (db : List Question) (q : QuestionCreate) (user_id new_id : Int),
        ((create_question db q user_id new_id).2).status = QuestionStatus.PROD) ∧
    (∀ (db db2 : List Question) (question_id : Int) (qu : QuestionUpdate) (user_id : Int)
        (q2 : Question),
        qu.status = Option.none →
        update_question_endpoint db question_id qu user_id = Except.ok (db2, q2) →
        q2.status = QuestionStatus.DEVMT) ∧
    (∀ (db db2 : List Question) (question_id : Int) (qu : QuestionUpdate) (user_id : Int)
        (q2 : Question) (st : QuestionStatus),
        qu.status = some st →
        update_question_endpoint db question_id qu user_id = Except.ok (db2, q2) →
        q2.status = st) := by
  refine ⟨?_, ?_, ?_⟩
  · intro db q user_id new_id
    rfl
  · intro db db2 question_id qu user_id q2 hst hok
    obtain ⟨orig, -, hq2⟩ := update_question_endpoint_ok db db2 question_id qu user_id q2 hok
    rw [if_pos hst] at hq2
    subst hq2
    exact apply_update_status_some orig _ QuestionStatus.DEVMT rfl
  · intro db db2 question_id qu user_id q2 st hst hok
    obtain ⟨orig, -, hq2⟩ := update_question_endpoint_ok db db2 question_id qu user_id q2 hok
    rw [if_neg (fun h => Option.noConfusion (hst ▸ h))] at hq2
    subst hq2
    exact apply_update_status_some orig qu st hst

/-- C5 witness: a concrete create and two concrete updates through the
endpoint, one omitting status, one supplying PROD. -/
theorem c5_status_defaults_witness :
    c5_upd_none.status = Option.none ∧
    update_question_endpoint [c5_q0] 1 c5_upd_none 2 = Except.ok ([c5_q2a], c5_q2a) ∧
    c5_upd_some.status = some QuestionStatus.PROD ∧
    update_question_endpoint [c5_q0] 1 c5_upd_some 2 = Except.ok ([c5_q2b], c5_q2b) ∧
    ((create_question [] ⟨"s", "t", "b", DifficultyLevel.EASY, Option.none⟩ 5 1).2).status =
      QuestionStatus.PROD ∧
    c5_q2a.status = QuestionStatus.DEVMT ∧
    c5_q2b.status = QuestionStatus.PROD :=
  ⟨rfl, rfl, rfl, rfl,
    c5_status_defaults.1 [] ⟨"s", "t", "b", DifficultyLevel.EASY, Option.none⟩ 5 1,
    c5_status_defaults.2.1 [c5_q0] [c5_q2a] 1 c5_upd_none 2 c5_q2a rfl rfl,
    c5_status_defaults.2.2 [c5_q0] [c5_q2b] 1 c5_upd_some 2 c5_q2b QuestionStatus.PROD rfl rfl⟩

/-- C6: for a viewer the list endpoint responds as if the requested status
filter were prod, whatever status was requested; and a viewer requesting an
existing non-prod question by id receives the 404 not-found error, never a
403. -/
theorem c6_viewer_restrictions (db : List Question) (question_id : Int) (q : Question)
    (hfind : get_question db question_id false = some q)
    (hst : q.status ≠ QuestionStatus.PROD) :
    (∀ (skip limit : Int) (subject topic : Option String)
        (difficulty : Option DifficultyLevel) (status : Option QuestionStatus),
        read_questions_endpoint db skip limit subject topic difficulty status
            UserRole.VIEWER =
          read_questions_endpoint db skip limit subject topic difficulty
            (some QuestionStatus.PROD) UserRole.VIEWER) ∧
    read_question_endpoint db question_id UserRole.VIEWER =
      Except.error ⟨404, "Question not found"⟩ ∧
    ∀ d, read_question_endpoint db question_id UserRole.VIEWER ≠ Except.error ⟨403, d⟩ := by
  refine ⟨?_, ?_, ?_⟩
  · intro skip limit subject topic difficulty status
    rfl
  · unfold read_question_endpoint
    rw [hfind]
    dsimp only
    rw [if_pos ⟨rfl, hst⟩]
  · intro d h
    unfold read_question_endpoint at h
    rw [hfind] at h
    dsimp only at h
    rw [if_pos ⟨rfl, hst⟩] at h
    injection h with h2
    have h3 := congrArg HTTPErr.status_code h2
    simp at h3

/-- C6 witness: a devmt question requested by a viewer yields the not-found
error. -/
theorem c6_viewer_restrictions_witness :
    get_question [c6_qdev] 1 false = some c6_qdev ∧
    c6_qdev.status ≠ QuestionStatus.PROD ∧
    read_question_endpoint [c6_qdev] 1 UserRole.VIEWER =
      Except.error ⟨404, "Question not found"⟩ :=
  ⟨rfl, by decide, (c6_viewer_restrictions [c6_qdev] 1 c6_qdev rfl (by decide)).2.1⟩

/-- The subject stage keeps exactly the rows passing its condition. -/
theorem mem_stage_subject (x : Question) (l : List Question) (subject : Option String) :
    x ∈ stage_subject l subject ↔
      x ∈ l ∧ (!truthyStr subject || sqlIlike x.subject (subject.getD "")) = true := by
  unfold stage_subject
  cases hs : truthyStr subject <;> simp [List.mem_filter]

/-- The topic stage keeps exactly the rows passing its condition. -/
theorem mem_stage_topic (x : Question) (l : List Question) (topic : Option String) :
    x ∈ stage_topic l topic ↔
      x ∈ l ∧ (!truthyStr topic || sqlIlike x.topic (topic.getD "")) = true := by
  unfold stage_topic
  cases hs : truthyStr topic <;> simp [List.mem_filter]

/-- The difficulty stage keeps exactly the rows passing its condition. -/
theorem mem_stage_difficulty (x : Question) (l : List Question)
    (difficulty : Option DifficultyLevel) :
    x ∈ stage_difficulty l difficulty ↔
      x ∈ l ∧
        (match difficulty with
          | some d => x.difficulty == d
          | Option.none => true) = true := by
  unfold stage_difficulty
  cases difficulty <;> simp [List.mem_filter]

/-- The status stage keeps exactly the rows passing its condition. -/
theorem mem_stage_status (x : Question) (l : List Question)
    (status : Option QuestionStatus) :
    x ∈ stage_status l status ↔
      x ∈ l ∧
        (match status with
          | some s => x.status == s
          | Option.none => true) = true := by
  unfold stage_status
  cases status <;> simp [List.mem_filter]

/-- The value-filter pipeline keeps exactly the rows matching all four
optional filters. -/
theorem mem_rest_filters (x : Question) (l : List Question)
    (subject topic : Option String) (difficulty : Option DifficultyLevel)
    (status : Option QuestionStatus) :
    x ∈ rest_filters l subject topic difficulty status ↔
      x ∈ l ∧ matches_filters x subject topic difficulty status = true := by
  unfold rest_filters matches_filters
  rw [mem_stage_status, mem_stage_difficulty, mem_stage_topic, mem_stage_subject]
  simp [Bool.and_assoc, and_assoc]

/-- The subject stage of a sublist is a sublist of the stage of the list. -/
theorem stage_subject_sublist {l1 l2 : List Question} (h : l1.Sublist l2)
    (subject : Option String) :
    (stage_subject l1 subject).Sublist (stage_subject l2 subject) := by
  unfold stage_subject
  cases truthyStr subject
  · simpa using h
  · simpa using List.Sublist.filter _ h

/-- The topic stage of a sublist is a sublist of the stage of the list. -/
theorem stage_topic_sublist {l1 l2 : List Question} (h : l1.Sublist l2)
    (topic : Option String) :
    (stage_topic l1 topic).Sublist (stage_topic l2 topic) := by
  unfold stage_topic
  cases truthyStr topic
  · simpa using h
  · simpa using List.Sublist.filter _ h

/-- The difficulty stage of a sublist is a sublist of the stage of the list. -/
theorem stage_difficulty_sublist {l1 l2 : List Question} (h : l1.Sublist l2)
    (difficulty : Option DifficultyLevel) :
    (stage_difficulty l1 difficulty).Sublist (stage_difficulty l2 difficulty) := by
  unfold stage_difficulty
  cases difficulty
  · simpa using h
  · simpa using List.Sublist.filter _ h

/-- The status stage of a sublist is a sublist of the stage of the list. -/
theorem stage_status_sublist {l1 l2 : List Question} (h : l1.Sublist l2)
    (status : Option QuestionStatus) :
    (stage_status l1 status).Sublist (stage_status l2 status) := by
  unfold stage_status
  cases status
  · simpa using h
  · simpa using List.Sublist.filter _ h

/-- The value-filter pipeline is monotone with respect to sublists. -/
theorem rest_filters_sublist {l1 l2 : List Question} (h : l1.Sublist l2)
    (subject topic : Option String) (difficulty : Option DifficultyLevel)
    (status : Option QuestionStatus) :
    (rest_filters l1 subject topic difficulty status).Sublist
      (rest_filters l2 subject topic difficulty status) := by
  unfold rest_filters
  exact stage_status_sublist
    (stage_difficulty_sublist (stage_topic_sublist (stage_subject_sublist h subject) topic)
      difficulty) status

/-- The subject stage output is a sublist of its input. -/
theorem stage_subject_sublist_self (l : List Question) (subject : Option String) :
    (stage_subject l subject).Sublist l := by
  unfold stage_subject
  cases truthyStr subject
  · simp
  · simp [List.filter_sublist]

/-- The topic stage output is a sublist of its input. -/
theorem stage_topic_sublist_self (l : List Question) (topic : Option String) :
    (stage_topic l topic).Sublist l := by
  unfold stage_topic
  cases truthyStr topic
  · simp
  · simp [List.filter_sublist]

/-- The difficulty stage output is a sublist of its input. -/
theorem stage_difficulty_sublist_self (l : List Question)
    (difficulty : Option DifficultyLevel) :
    (stage_difficulty l difficulty).Sublist l := by
  unfold stage_difficulty
  cases difficulty
  · simp
  · simp [List.filter_sublist]

/-- The status stage output is a sublist of its input. -/
theorem stage_status_sublist_self (l : List Question) (status : Option QuestionStatus) :
    (stage_status l status).Sublist l := by
  unfold stage_status
  cases status
  · simp
  · simp [List.filter_sublist]

/-- The value-filter pipeline output is a sublist of its input. -/
theorem rest_filters_sublist_self (l : List Question) (subject topic : Option String)
    (difficulty : Option DifficultyLevel) (status : Option QuestionStatus) :
    (rest_filters l subject topic difficulty status).Sublist l := by
  unfold rest_filters
  exact ((stage_status_sublist_self _ status).trans
    ((stage_difficulty_sublist_self _ difficulty).trans
      ((stage_topic_sublist_self _ topic).trans (stage_subject_sublist_self l subject))))

/-- C7: a soft-deleted question never appears in the default listing for any
pagination and filters; it does appear in the include_deleted listing when it
is in the database and matches the value filters; and for identical filters
the include_deleted count is at least the default count. -/
theorem c7_soft_delete_visibility (db : List Question) (q : Question)
    (hdel : q.is_deleted = true) :
    (∀ (skip limit : Nat) (subject topic : Option String)
        (difficulty : Option DifficultyLevel) (status : Option QuestionStatus),
        q ∉ get_questions db skip limit subject topic difficulty status false) ∧
    (∀ (subject topic : Option String) (difficulty : Option DifficultyLevel)
        (status : Option QuestionStatus),
        q ∈ db → matches_filters q subject topic difficulty status = true →
        q ∈ get_questions db 0 db.length subject topic difficulty status true) ∧
    (∀ (subject topic : Option String) (difficulty : Option DifficultyLevel)
        (status : Option QuestionStatus),
        get_questions_count db subject topic difficulty status false ≤
          get_questions_count db subject topic difficulty status true) := by
  refine ⟨?_, ?_, ?_⟩
  · intro skip limit subject topic difficulty status hmem
    unfold get_questions at hmem
    have h1 := List.mem_of_mem_drop (List.mem_of_mem_take hmem)
    unfold question_filters at h1
    have h2 := (mem_rest_filters q _ subject topic difficulty status).mp h1
    have h3 := (List.mem_filter.mp h2.1).2
    rw [hdel] at h3
    exact Bool.noConfusion (beq_iff_eq.mp h3)
  · intro subject topic difficulty status hdb hmatch
    have hqf : question_filters db subject topic difficulty status true =
        rest_filters db subject topic difficulty status := rfl
    unfold get_questions
    rw [hqf, List.drop_zero]
    have hmem : q ∈ rest_filters db subject topic difficulty status :=
      (mem_rest_filters q db subject topic difficulty status).mpr ⟨hdb, hmatch⟩
    have hlen : (rest_filters db subject topic difficulty status).length ≤ db.length :=
      (rest_filters_sublist_self db subject topic difficulty status).length_le
    rw [List.take_of_length_le hlen]
    exact hmem
  · intro subject topic difficulty status
    unfold get_questions_count question_filters
    exact (rest_filters_sublist (List.filter_sublist db) subject topic difficulty
      status).length_le

/-- C7 witness: a single soft-deleted question is hidden from the default
listing, present in the include_deleted listing, and the counts compare. -/
theorem c7_soft_delete_visibility_witness :
    c7_qdel.is_deleted = true ∧
    c7_qdel ∉ get_questions [c7_qdel] 0 100 Option.none Option.none Option.none
      Option.none false ∧
    c7_qdel ∈ get_questions [c7_qdel] 0 ([c7_qdel] : List Question).length Option.none
      Option.none Option.none Option.none true ∧
    get_questions_count [c7_qdel] Option.none Option.none Option.none Option.none false ≤
      get_questions_count [c7_qdel] Option.none Option.none Option.none Option.none true :=
  ⟨rfl,
    (c7_soft_delete_visibility [c7_qdel] c7_qdel rfl).1 0 100 Option.none Option.none
      Option.none Option.none,
    (c7_soft_delete_visibility [c7_qdel] c7_qdel rfl).2.1 Option.none Option.none
      Option.none Option.none (by simp) rfl,
    (c7_soft_delete_visibility [c7_qdel] c7_qdel rfl).2.2 Option.none Option.none
      Option.none Option.none⟩

/-- Inserting an entry permutes consing it. -/
theorem insert_desc_perm (x : ScanEntry) (l : List ScanEntry) :
    (insert_desc x l).Perm (x :: l) := by
  induction l with
  | nil => exact List.Perm.refl [x]
  | cons y ys ih =>
    unfold insert_desc
    by_cases h : sort_key y < sort_key x
    · rw [if_pos h]
    · rw [if_neg h]
      exact (ih.cons y).trans (List.Perm.swap x y ys)

/-- The elements of an insertion are the inserted entry or old elements. -/
theorem mem_insert_desc {z x : ScanEntry} {l : List ScanEntry}
    (h : z ∈ insert_desc x l) : z = x ∨ z ∈ l :=
  List.mem_cons.mp ((insert_desc_perm x l).mem_iff.mp h)

/-- Insertion preserves descending order. -/
theorem insert_desc_sorted (x : ScanEntry) (l : List ScanEntry) (h : sorted_desc l) :
    sorted_desc (insert_desc x l) := by
  induction l with
  | nil => simp [insert_desc, sorted_desc]
  | cons y ys ih =>
    unfold insert_desc
    obtain ⟨hy, hys⟩ := List.pairwise_cons.mp h
    by_cases hlt : sort_key y < sort_key x
    · rw [if_pos hlt]
      refine List.pairwise_cons.mpr ⟨?_, h⟩
      intro z hz
      rcases List.mem_cons.mp hz with rfl | hz2
      · exact le_of_lt hlt
      · exact le_trans (hy z hz2) (le_of_lt hlt)
    · rw [if_neg hlt]
      refine List.pairwise_cons.mpr ⟨?_, ih hys⟩
      intro z hz
      rcases mem_insert_desc hz with rfl | hz2
      · exact not_lt.mp hlt
      · exact hy z hz2

/-- The fold of insertions permutes the accumulator followed by the input. -/
theorem sort_desc_foldl_perm (l acc : List ScanEntry) :
    (l.foldl (fun a x => insert_desc x a) acc).Perm (acc ++ l) := by
  induction l generalizing acc with
  | nil => simp
  | cons x xs ih =>
    have h1 := ih (insert_desc x acc)
    have h2 : (insert_desc x acc ++ xs).Perm ((x :: acc) ++ xs) :=
      (insert_desc_perm x acc).append_right xs
    have h3 : (acc ++ x :: xs).Perm ((x :: acc) ++ xs) := List.perm_middle
    exact (h1.trans h2).trans h3.symm

/-- The sort is a permutation of its input. -/
theorem sort_desc_perm (l : List ScanEntry) : (sort_desc l).Perm l := by
  unfold sort_desc
  have h := sort_desc_foldl_perm l []
  simpa using h

/-- The fold of insertions returns a descending list whenever the
accumulator is descending. -/
theorem sort_desc_foldl_sorted (l acc : List ScanEntry) (h : sorted_desc acc) :
    sorted_desc (l.foldl (fun a x => insert_desc x a) acc) := by
  induction l generalizing acc with
  | nil => exact h
  | cons x xs ih => exact ih (insert_desc x acc) (insert_desc_sorted x acc h)

/-- The sort returns a descending list. -/
theorem sort_desc_sorted (l : List ScanEntry) : sorted_desc (sort_desc l) :=
  sort_desc_foldl_sorted l [] List.Pairwise.nil

/-- Every entry a day contributes has the queried question id. -/
theorem day_matches_qid {e : ScanEntry} {lines : List LogLine} {question_id : Int}
    (h : e ∈ day_matches lines question_id) : e.question_id == some question_id := by
  unfold day_matches at h
  obtain ⟨l, hl, hf⟩ := List.mem_filterMap.mp h
  cases l with
  | entry e0 =>
    dsimp [parse_line] at hf
    by_cases hq : e0.question_id == some question_id
    · rw [if_pos hq] at hf
      injection hf with h2
      subst h2
      exact hq
    · rw [if_neg hq] at hf
      exact Option.noConfusion hf
  | garbage s =>
    dsimp [parse_line] at hf
    exact Option.noConfusion hf

/-- Filtering the unparseable lines out of a file does not change the
entries the file contributes. -/
theorem day_matches_filter (lines : List LogLine) (question_id : Int) :
    day_matches
        (lines.filter fun l =>
          match l with
          | LogLine.entry _ => true
          | LogLine.garbage _ => false)
        question_id
      = day_matches lines question_id := by
  induction lines with
  | nil => rfl
  | cons l ls ih =>
    cases l with
    | entry e => simp [day_matches, List.filter_cons, List.filterMap_cons] at ih ⊢; rw [ih]
    | garbage s =>
      simp [day_matches, List.filter_cons, List.filterMap_cons, parse_line] at ih ⊢
      exact ih

/-- Every entry the scan collects has the queried question id. -/
theorem scan_matches_qid {e : ScanEntry} (fs : AuditFS) (question_id : Int)
    (days_back : Nat) (h : e ∈ scan_matches fs question_id days_back) :
    e.question_id == some question_id := by
  unfold scan_matches at h
  obtain ⟨lsub, hsub, hmem⟩ := List.mem_flatten.mp h
  obtain ⟨i, -, hval⟩ := List.mem_map.mp hsub
  cases hfs : fs i with
  | none =>
    rw [hfs] at hval
    rw [← hval] at hmem
    exact absurd hmem (List.not_mem_nil e)
  | some lines =>
    rw [hfs] at hval
    rw [← hval] at hmem
    exact day_matches_qid hmem

/-- Dropping garbage lines leaves the scanned matches unchanged. -/
theorem scan_matches_drop_garbage (fs : AuditFS) (question_id : Int) (days_back : Nat) :
    scan_matches (drop_garbage fs) question_id days_back =
      scan_matches fs question_id days_back := by
  unfold scan_matches
  congr 1
  apply List.map_congr_left
  intro i _
  unfold drop_garbage
  cases hfs : fs i with
  | none => simp [hfs]
  | some lines => simp [hfs, day_matches_filter]

/-- C8: the history scan returns a permutation of the matching entries of
the last days_back daily files in file order, sorted by descending timestamp
key, every returned entry carries the queried question id, and removing the
unparseable lines of the files does not change the result. -/
theorem c8_history_scan (fs : AuditFS) (question_id : Int) (days_back : Nat) :
    (get_question_audit_history fs question_id days_back).Perm
      (scan_matches fs question_id days_back) ∧
    sorted_desc (get_question_audit_history fs question_id days_back) ∧
    (get_question_audit_history fs question_id days_back).all
      (fun e => e.question_id == some question_id) = true ∧
    get_question_audit_history (drop_garbage fs) question_id days_back =
      get_question_audit_history fs question_id days_back := by
  refine ⟨sort_desc_perm _, sort_desc_sorted _, ?_, ?_⟩
  · rw [List.all_eq_true]
    intro e he
    exact scan_matches_qid fs question_id days_back
      ((sort_desc_perm (scan_matches fs question_id days_back)).mem_iff.mp he)
  · unfold get_question_audit_history
    rw [scan_matches_drop_garbage]

/-- C9: for a positive limit the list endpoint responds with page equal to
the floor division skip // limit plus one and size equal to limit; for limit
zero the page computation divides by zero and the handler fails with the
ZeroDivisionError instead of returning a list. -/
theorem c9_pagination (db : List Question) (skip limit : Int)
    (subject topic : Option String) (difficulty : Option DifficultyLevel)
    (status : Option QuestionStatus) (role : UserRole) :
    (0 < limit →
      read_questions_endpoint db skip limit subject topic difficulty status role =
        Except.ok
          ⟨get_questions db skip.toNat limit.toNat subject topic difficulty
              (effective_status role status) false,
            get_questions_count db subject topic difficulty (effective_status role status)
              false,
            Int.fdiv skip limit + 1, limit⟩) ∧
    (limit = 0 →
      read_questions_endpoint db skip limit subject topic difficulty status role =
        Except.error "integer division or modulo by zero") := by
  constructor
  · intro h
    unfold read_questions_endpoint pyFloorDiv
    rw [if_neg (by omega : ¬limit = 0)]
  · intro h
    unfold read_questions_endpoint pyFloorDiv
    rw [if_pos h]

/-- C9 witness: with skip 5 and limit 2 the page is 3 and size 2; with limit
0 the handler fails. -/
theorem c9_pagination_witness :
    (0 : Int) < 2 ∧
    read_questions_endpoint [] 5 2 Option.none Option.none Option.none Option.none
        UserRole.ADMIN =
      Except.ok
        ⟨get_questions [] (5 : Int).toNat (2 : Int).toNat Option.none Option.none
            Option.none (effective_status UserRole.ADMIN Option.none) false,
          get_questions_count [] Option.none Option.none Option.none
            (effective_status UserRole.ADMIN Option.none) false,
          Int.fdiv 5 2 + 1, 2⟩ ∧
    read_questions_endpoint [] 5 0 Option.none Option.none Option.none Option.none
        UserRole.ADMIN =
      Except.error "integer division or modulo by zero" :=
  ⟨by decide,
    (c9_pagination [] 5 2 Option.none Option.none Option.none Option.none
        UserRole.ADMIN).1 (by decide),
    (c9_pagination [] 5 0 Option.none Option.none Option.none Option.none
        UserRole.ADMIN).2 rfl⟩
